import Mathlib

/-!
Verification of the canopy-network/typescript-plugin repository.

This file shallowly embeds the plugin's pure logic in Lean 4:

* `src/utils/proto-utils.ts` : the length-prefixed key joiner and the
  big-endian u64 encoder,
* `src/core/keys.ts`         : state keys and the address/amount validators,
* `src/utils/errors.ts`      : the wire error shape and the error factories,
* `src/core/contract.ts`     : `checkTx`, `deliverTx` and the send execution
  (`deliverMessageSend`, `calculateUpdatedBalances`,
  `prepareStateOperations`, `unmarshalAccountsAndPool`),
* `src/network/index.ts`     : the inbound dispatch of the socket client
  (`handleInboundMessage`, `handleFSMResponse`, `processRequestMessage`)
  and the pending-map cleanup done by `waitForResponse` on a timeout.

Modelling conventions:

* Byte sequences (`Buffer`, `Uint8Array`) are `List Nat` with entries < 256.
* `Long` 64-bit values are `Nat` bit patterns below `2 ^ 64`; long.js `add`
  and `sub` wrap modulo `2 ^ 64` (`u64add`, `u64sub`).
* Protobuf marshalling of accounts and pools is kept abstract: a state write
  carries the structured value (`WriteVal`) instead of its encoded bytes, and
  a state read yields the decoded structure (`Option Account` / `Option Pool`,
  `none` for an absent or empty entry, mirroring `unmarshal` returning null).
* The asynchronous state read/write round trips through the socket are
  parameters (`DeliverEnv`, `CheckEnv`): they hold what the FSM's responses
  decode to, so the contract handlers become pure functions of them.
* Error `msg` strings follow the TypeScript texts; where the source
  interpolates runtime data (stack messages, JSON dumps) the model keeps the
  stable head of the text.  Theorems compare whole errors only where every
  byte of the message is fixed in the source, otherwise only the `code`.
-/

namespace Plugin

/-- Byte strings (`Buffer` / `Uint8Array`) as lists of byte values. -/
abbrev Bytes := List Nat

/-- `2 ^ 64`, the modulus of long.js 64-bit arithmetic. -/
def U64MOD : Nat := 2 ^ 64

/-- Wrapping 64-bit addition: long.js `Long.add` on u64 bit patterns. -/
def u64add (a b : Nat) : Nat := (a + b) % U64MOD

/-- Wrapping 64-bit subtraction: long.js `Long.sub` on u64 bit patterns. -/
def u64sub (a b : Nat) : Nat := (a + (U64MOD - b % U64MOD)) % U64MOD

/-! ## Key codec (`src/utils/proto-utils.ts`, `src/core/keys.ts`) -/

/-- `joinLenPrefix` from `proto-utils.ts`: concatenates the items, each
preceded by its one-byte length; a null/undefined or empty item is skipped
and contributes nothing.  (Call sites only pass items of length ≤ 20, within
the range of `writeUInt8`.) -/
def joinLenPrefixed : List (Option Bytes) → Bytes
  | [] => []
  | none :: rest => joinLenPrefixed rest
  | some b :: rest =>
    if b.length = 0 then joinLenPrefixed rest
    else (b.length :: b) ++ joinLenPrefixed rest

/-- `formatUint64` from `proto-utils.ts`: 8 bytes, big-endian. -/
def formatUint64 (v : Nat) : Bytes :=
  [v / 2 ^ 56 % 256, v / 2 ^ 48 % 256, v / 2 ^ 40 % 256, v / 2 ^ 32 % 256,
   v / 2 ^ 24 % 256, v / 2 ^ 16 % 256, v / 2 ^ 8 % 256, v % 256]

/-- `ACCOUNT_PREFIX` from `keys.ts` (store key tag byte for accounts). -/
def accountTag : Bytes := [1]

/-- `POOL_PREFIX` from `keys.ts` (store key tag byte for pools). -/
def poolTag : Bytes := [2]

/-- `PARAMS_PREFIX` from `keys.ts` (store key tag byte for governance
parameters). -/
def paramsTag : Bytes := [7]

/-- `keyForAccount` from `keys.ts`. -/
def keyForAccount (address : Bytes) : Bytes :=
  joinLenPrefixed [some accountTag, some address]

/-- `keyForFeePool` from `keys.ts`. -/
def keyForFeePool (chainId : Nat) : Bytes :=
  joinLenPrefixed [some poolTag, some (formatUint64 chainId)]

/-- `keyForFeeParams` from `keys.ts`; the suffix is the UTF-8 of "/f/". -/
def keyForFeeParams : Bytes :=
  joinLenPrefixed [some paramsTag, some [47, 102, 47]]

/-! ## JavaScript values and the validators (`src/core/keys.ts`)

`validateAddress` and `validateAmount` take arbitrary JavaScript values.  The
model's universe `JSValue` covers the shapes the claims speak about: byte
sequences, decimal numeral strings, numbers (finite rationals, NaN and the
infinities), long.js `Long` instances, plain objects with `low`/`high`
fields (integer-valued, in int32 range), null, undefined and booleans.
Non-numeral strings and exotic objects are outside the model. -/

inductive JSValue where
  /-- A `Buffer`, `Uint8Array` or plain number array (entries < 256). -/
  | bytes (b : Bytes)
  /-- A decimal numeral string: digits (each < 10), optional leading minus. -/
  | decStr (digits : List Nat) (neg : Bool)
  /-- A finite JavaScript number with exact value `q`. -/
  | num (q : ℚ)
  /-- The number NaN. -/
  | nanV
  /-- One of the two infinities. -/
  | infV (neg : Bool)
  /-- A long.js `Long` instance with the given 64-bit pattern and sign mode. -/
  | longObj (bits : Nat) (unsigned : Bool)
  /-- A plain object with integer `low`/`high` fields (int32 range) and an
  optional truthy `unsigned` field. -/
  | longLike (low high : Int) (unsigned : Bool)
  | nullV
  | undef
  | boolV (b : Bool)
deriving Repr, DecidableEq

/-- Value of a digit list read as a decimal numeral. -/
def natOfDigits (ds : List Nat) : Nat := ds.foldl (fun a d => a * 10 + d) 0

/-- Bit pattern produced by `Long.fromString` (signed mode) on a decimal
numeral: the numeral's value wrapped modulo `2 ^ 64`, negated in two's
complement when the string carries a minus sign. -/
def longOfDecString (ds : List Nat) (neg : Bool) : Nat :=
  let v := natOfDigits ds % U64MOD
  if neg then (U64MOD - v) % U64MOD else v

/-- Numeric value of a 64-bit pattern under long.js sign modes. -/
def longToZ (bits : Nat) (unsigned : Bool) : Int :=
  if unsigned then ((bits % U64MOD : Nat) : Int)
  else if bits % U64MOD < 2 ^ 63 then ((bits % U64MOD : Nat) : Int)
  else ((bits % U64MOD : Nat) : Int) - ((U64MOD : Nat) : Int)

/-- long.js `greaterThan(0)`. -/
def longGtZero (bits : Nat) (unsigned : Bool) : Bool :=
  decide (0 < longToZ bits unsigned)

/-- JavaScript `|0`-style reduction of an integer to an unsigned 32-bit
pattern (used to combine `low`/`high` as `Long.fromBits` does). -/
def toU32 (x : Int) : Nat := (x % (2 ^ 32 : Int)).toNat

/-- Bit pattern of `Long.fromBits(low, high, ...)` for int32-range parts. -/
def longBitsOfParts (low high : Int) : Nat := toU32 high * 2 ^ 32 + toU32 low

/-- `validateAmount` from `keys.ts`.  Branch order follows the source:
`Long.isLong` first, then `typeof number` (requiring only finiteness and
positivity), then strings via `Long.fromString` (which throws on the empty
string), then Long-like objects via `Long.fromBits`, else false. -/
def validateAmount : JSValue → Bool
  | .longObj bits u => longGtZero bits u
  | .num q => decide (0 < q)
  | .nanV => false
  | .infV _ => false
  | .decStr [] _ => false
  | .decStr ds neg => longGtZero (longOfDecString ds neg) false
  | .longLike low high u => longGtZero (longBitsOfParts low high) u
  | _ => false

/-- JavaScript truthiness of a `JSValue` (objects are truthy, `0`, `NaN`,
the empty string, `false`, null and undefined are falsy). -/
def jsTruthy : JSValue → Bool
  | .bytes _ => true
  | .decStr ds neg => !(ds.isEmpty && !neg)
  | .num q => decide (q ≠ 0)
  | .nanV => false
  | .infV _ => true
  | .longObj _ _ => true
  | .longLike _ _ _ => true
  | .nullV => false
  | .undef => false
  | .boolV b => b

/-- `Buffer.from` coercion: byte sequences pass through, strings are encoded
as UTF-8 (a digit `d` is the byte `48 + d`, a minus sign is byte 45); numbers,
Long objects, plain objects without a length, booleans, null and undefined
make `Buffer.from` throw, modelled as `none`. -/
def coerceToBytes : JSValue → Option Bytes
  | .bytes b => some b
  | .decStr ds neg => some ((if neg then [45] else []) ++ ds.map (fun d => 48 + d))
  | _ => none

/-- `validateAddress` from `keys.ts`: falsy values are rejected, then the
value is coerced with `Buffer.from` (a throw yields false) and the byte
length is compared with 20. -/
def validateAddress (v : JSValue) : Bool :=
  if !(jsTruthy v) then false
  else
    match coerceToBytes v with
    | some b => decide (b.length = 20)
    | none => false

/-- Spec-side predicate, written from the claim's words: the value is a
byte sequence coercion of length exactly 20. -/
def coercesTo20Bytes (v : JSValue) : Bool :=
  match coerceToBytes v with
  | some b => decide (b.length = 20)
  | none => false

/-- Spec-side predicate, written from the claim's words: the number is a
non-zero unsigned integer at most `2 ^ 64 - 1`. -/
def specNonzeroU64Int (q : ℚ) : Bool :=
  decide (q.den = 1) && decide (0 < q.num) && decide (q.num ≤ (2 ^ 64 - 1 : Int))

/-! ## Error taxonomy (`src/utils/errors.ts`) -/

/-- The wire error shape carried in replies. -/
structure ProtoError where
  code : Nat
  module : String
  msg : String
deriving Repr, DecidableEq

/-- `errMarshal` (code 2). -/
def errMarshal (inner : String) : ProtoError :=
  { code := 2, module := "plugin", msg := "marshal() failed with err: " ++ inner }

/-- `errUnmarshal` (code 3). -/
def errUnmarshal (inner : String) : ProtoError :=
  { code := 3, module := "plugin", msg := "unmarshal() failed with err: " ++ inner }

/-- `errInsufficientFunds` (code 9). -/
def errInsufficientFunds : ProtoError :=
  { code := 9, module := "plugin", msg := "insufficient funds" }

/-- `errFromAny` (code 10). -/
def errFromAny (inner : String) : ProtoError :=
  { code := 10, module := "plugin", msg := "fromAny() failed with err: " ++ inner }

/-- `errInvalidMessageCast` (code 11). -/
def errInvalidMessageCast : ProtoError :=
  { code := 11, module := "plugin", msg := "the message cast failed" }

/-- `errInvalidAddress` (code 12). -/
def errInvalidAddress : ProtoError :=
  { code := 12, module := "plugin", msg := "address is invalid" }

/-- `errInvalidAmount` (code 13). -/
def errInvalidAmount : ProtoError :=
  { code := 13, module := "plugin", msg := "amount is invalid" }

/-- `errTxFeeBelowStateLimit` (code 14). -/
def errTxFeeBelowStateLimit : ProtoError :=
  { code := 14, module := "plugin", msg := "tx.fee is below state limit" }

/-! ## Contract data (`src/core/contract.ts`) -/

/-- A decoded `Account` protobuf message.  `amount` is a u64 bit pattern. -/
structure Account where
  address : Bytes
  amount : Nat
deriving Repr, DecidableEq

/-- A decoded `Pool` protobuf message. -/
structure Pool where
  id : Nat
  amount : Nat
deriving Repr, DecidableEq

/-- A decoded `MessageSend`.  Protobuf decoding always materialises the three
fields (absent wire fields become defaults), so `isMessageSend` holds for
every decoded `MessageSend`. -/
structure MessageSend where
  fromAddress : Bytes
  toAddress : Bytes
  amount : Nat
deriving Repr, DecidableEq

/-! ## `fromAny` (`src/utils/proto-utils.ts`) -/

/-- What the `value` bytes of a protobuf `Any` hold.  `content m` stands for
non-empty bytes; decoding them under the `MessageSend` schema yields `m`
(protobuf decoding is total on non-empty bytes, missing fields default), and
decoding them under the `Transaction` schema yields some transaction whose
fields the claims never inspect. -/
inductive AnyValue where
  /-- `value` is undefined or null. -/
  | absent
  /-- `value` is a zero-length byte string (`unmarshal` returns null). -/
  | empty
  /-- non-empty bytes, decoding to `m` as a `MessageSend`. -/
  | content (m : MessageSend)
deriving Repr, DecidableEq

/-- A protobuf `Any` as the contract receives it (`typeUrl ?? type_url`
already merged into one field; `none` or the empty string is a missing URL). -/
structure AnyMessage where
  typeUrl : Option String
  value : AnyValue
deriving Repr, DecidableEq

/-- Helper for `lastSegment`: walks the characters, resetting the current
segment at each separator, and returns the final segment. -/
def lastSegAux : List Char → List Char → List Char
  | [], acc => acc.reverse
  | c :: rest, acc => if c = '/' then lastSegAux rest [] else lastSegAux rest (c :: acc)

/-- `typeUrl.split(sep).pop() ?? typeUrl` with separator "/": the substring
after the last slash (the whole string when there is none, the empty string
for a trailing slash — `split` yields a trailing empty piece there). -/
def lastSegment (url : String) : String := String.mk (lastSegAux url.data [])

/-- Result of a successful `fromAny`: either a `MessageSend` or a decoded
`Transaction` (whose `fromAddress`/`toAddress`/`amount` fields are undefined,
so the `isMessageSend` presence guard rejects it). -/
inductive FromAnyResult where
  | sendMsg (m : MessageSend)
  | txMsg
deriving Repr, DecidableEq

/-- `fromAny` from `proto-utils.ts`.  Checks the type URL, then the value,
then dispatches on the last URL segment; only `MessageSend`/
`types.MessageSend` and `Transaction`/`types.Transaction` are recognised,
anything else throws.  Thrown messages are surfaced as `Except.error`. -/
def fromAny (a : AnyMessage) : Except String FromAnyResult :=
  match a.typeUrl with
  | none => .error "FromAny failed: Any message missing type URL"
  | some url =>
    if url = "" then .error "FromAny failed: Any message missing type URL"
    else
      match a.value with
      | .absent => .error "FromAny failed: Any message missing value"
      | v =>
        let typeName := lastSegment url
        if typeName = "MessageSend" || typeName = "types.MessageSend" then
          match v with
          | .content m => .ok (.sendMsg m)
          | _ => .error "FromAny failed: Failed to unmarshal MessageSend"
        else if typeName = "Transaction" || typeName = "types.Transaction" then
          match v with
          | .content _ => .ok .txMsg
          | _ => .error "FromAny failed: Failed to unmarshal Transaction"
        else .error ("FromAny failed: Unknown message type in Any: " ++ typeName)

/-- Convenience: an `Any` that carries `m` under the `types.MessageSend` URL. -/
def mkSendAny (m : MessageSend) : AnyMessage :=
  { typeUrl := some "types.MessageSend", value := .content m }

/-! ## checkTx (`src/core/contract.ts`) -/

/-- Reply shape of `checkTx`.  Fields the source leaves undefined on error
replies are `none` / `[]`. -/
structure CheckTxResponse where
  recipient : Option Bytes
  authorizedSigners : List Bytes
  error : Option ProtoError
deriving Repr, DecidableEq

/-- Observable steps of a `checkTx` run, recorded to state the fee-floor
claim's "performs no further work beyond the fee-params read". -/
inductive CheckEvent where
  | feeParamsRead
  | fromAnyCall
  | validFromAddr
  | validToAddr
  | validAmount
deriving Repr, DecidableEq

/-- What the fee-params state read returned. -/
inductive FeeParamsEntry where
  /-- no value bytes for the key: `Fee parameters not found` (code 1). -/
  | absent
  /-- bytes that make `unmarshal` throw (surfaced as `errUnmarshal`). -/
  | badDecode
  /-- bytes decoding to `FeeParams` with this `sendFee`. -/
  | value (sendFee : Nat)
deriving Repr, DecidableEq

/-- The FSM side of a `checkTx` run: the batch-level error and the entry of
the single fee-params read. -/
structure CheckEnv where
  readErr : Option ProtoError
  entry : FeeParamsEntry
deriving Repr, DecidableEq

/-- An error-only `CheckTxResponse`. -/
def checkErr (e : ProtoError) : CheckTxResponse :=
  { recipient := none, authorizedSigners := [], error := some e }

/-- `checkMessageSend` from `contract.ts`: validates the two addresses (20
bytes) and the amount (positive), in source order, and returns the recipient
and authorized signers.  The returned event list records which validators
ran. -/
def checkMessageSend (m : MessageSend) : CheckTxResponse × List CheckEvent :=
  if !(validateAddress (.bytes m.fromAddress)) then
    (checkErr errInvalidAddress, [.validFromAddr])
  else if !(validateAddress (.bytes m.toAddress)) then
    (checkErr errInvalidAddress, [.validFromAddr, .validToAddr])
  else if !(validateAmount (.longObj m.amount true)) then
    (checkErr errInvalidAmount, [.validFromAddr, .validToAddr, .validAmount])
  else
    ({ recipient := some m.toAddress, authorizedSigners := [m.fromAddress],
       error := none },
     [.validFromAddr, .validToAddr, .validAmount])

/-- `checkTx` from `contract.ts`.  One batched fee-params read; a missing
entry yields `code 1, Fee parameters not found`; `normalizeAmount` throws on
a zero fee or zero `sendFee` and the surrounding catch converts the throw to
`errUnmarshal`; a fee below `sendFee` yields `errTxFeeBelowStateLimit`;
otherwise the message is decoded with `fromAny` and validated.  The second
component records the observable steps in order. -/
def checkTx (fee : Nat) (msgAny : AnyMessage) (env : CheckEnv) :
    CheckTxResponse × List CheckEvent :=
  match env.readErr with
  | some e => (checkErr e, [.feeParamsRead])
  | none =>
    match env.entry with
    | .absent =>
      (checkErr { code := 1, module := "contract", msg := "Fee parameters not found" },
       [.feeParamsRead])
    | .badDecode =>
      (checkErr (errUnmarshal "Unmarshal failed: invalid wire type"), [.feeParamsRead])
    | .value sendFee =>
      if fee = 0 then
        (checkErr (errUnmarshal
          "Failed to normalize request.tx.fee: Invalid amount: must be greater than 0. Value: 0"),
         [.feeParamsRead])
      else if sendFee = 0 then
        (checkErr (errUnmarshal
          "Failed to normalize minFees.sendFee: Invalid amount: must be greater than 0. Value: 0"),
         [.feeParamsRead])
      else if fee < sendFee then
        (checkErr errTxFeeBelowStateLimit, [.feeParamsRead])
      else
        match fromAny msgAny with
        | .error s => (checkErr (errFromAny s), [.feeParamsRead, .fromAnyCall])
        | .ok .txMsg => (checkErr errInvalidMessageCast, [.feeParamsRead, .fromAnyCall])
        | .ok (.sendMsg m) =>
          let r := checkMessageSend m
          (r.1, .feeParamsRead :: .fromAnyCall :: r.2)

/-! ## Send execution (`src/core/contract.ts`) -/

/-- Reply shape of `deliverTx`. -/
structure DeliverTxResponse where
  error : Option ProtoError
deriving Repr, DecidableEq

/-- A value placed into the state-write batch (protobuf encoding abstracted:
the batch carries the structured account/pool instead of its bytes). -/
inductive WriteVal where
  | acct (a : Account)
  | pool (p : Pool)
deriving Repr, DecidableEq

/-- A `StateWriteRequest`: ordered `sets` and `deletes`. -/
structure StateWrite where
  sets : List (Bytes × WriteVal)
  deletes : List Bytes
deriving Repr, DecidableEq

/-- The FSM side of a `deliverMessageSend` run: the chain id from config,
the batch-level error of the account/pool read, the decoded values found
under `kFrom`, `kTo` and `kPool` (`none` = absent or empty, `unmarshal`
returns null), and the error field of the `StateWriteResponse`. -/
structure DeliverEnv where
  chainId : Nat
  readErr : Option ProtoError
  fromRead : Option Account
  toRead : Option Account
  poolRead : Option Pool
  writeErr : Option ProtoError
deriving Repr, DecidableEq

/-- `normalizeAddress` from `keys.ts`: returns the bytes when they are a
valid 20-byte address, otherwise throws. -/
def normalizeAddressE (addr : Bytes) : Except String Bytes :=
  if validateAddress (.bytes addr) then .ok addr
  else .error "Invalid address: must be exactly 20 bytes"

/-- `calculateUpdatedBalances` from `contract.ts`.  Builds the updated
sender account (full `amount + fee` deduction) and the updated recipient
account (fee-only deduction from the sender balance on a self-transfer,
`toAmount + amount` otherwise).  `normalizeAddress` throws on a non-20-byte
address; the throw is surfaced as `Except.error`. -/
def calculateUpdatedBalances (fromAmount : Nat) (toAccount : Account)
    (m : MessageSend) (transactionFee : Nat) (fromKey toKey : Bytes) :
    Except String (Account × Account) :=
  let messageAmount := m.amount
  let amountToDeduct := u64add messageAmount transactionFee
  match normalizeAddressE m.fromAddress with
  | .error s => .error s
  | .ok fa =>
    let updatedFrom : Account := { address := fa, amount := u64sub fromAmount amountToDeduct }
    match normalizeAddressE m.toAddress with
    | .error s => .error s
    | .ok ta =>
      if fromKey = toKey then
        .ok (updatedFrom, { address := ta, amount := u64sub fromAmount transactionFee })
      else
        .ok (updatedFrom, { address := ta, amount := u64add toAccount.amount messageAmount })

/-- `prepareStateOperations` from `contract.ts`.  Always sets the fee pool;
deletes `kFrom` when the updated sender balance is zero on a non-self
transfer, otherwise sets `kFrom` to the updated sender account; sets `kTo`
to the updated recipient account only on non-self transfers. -/
def prepareStateOperations (updatedFrom updatedTo : Account) (updatedPool : Pool)
    (fromKey toKey feePoolKey : Bytes) (isSelf : Bool) : StateWrite :=
  let sets0 : List (Bytes × WriteVal) := [(feePoolKey, .pool updatedPool)]
  let fd : List (Bytes × WriteVal) × List Bytes :=
    if updatedFrom.amount = 0 && !isSelf then (sets0, [fromKey])
    else (sets0 ++ [(fromKey, .acct updatedFrom)], [])
  let sets2 := if !isSelf then fd.1 ++ [(toKey, .acct updatedTo)] else fd.1
  { sets := sets2, deletes := fd.2 }

/-- `deliverMessageSend` from `contract.ts`, as a function of the FSM
responses.  Returns the reply and the state-write request issued (`none`
when no `stateWrite` was sent).

Path notes, matching the source:
* `normalizeAmount(fee)` throws on a zero fee; the catch yields `errMarshal`.
* A batch-level read error is thrown (`State read error: ...`) and caught as
  `errMarshal`.
* An absent sender makes `unmarshal` return null and
  `fromAccount.amount` then raises a TypeError, caught as `errMarshal` (the
  V8 text is `Cannot read properties of null (reading 'amount')`; the model
  drops the quotes).  The source only reaches this after building the
  recipient/pool defaults, which has no observable effect.
* The funds check compares the sender balance against the wrapped
  `amount + fee` before any key or balance computation.
* The recipient account defaults to `(toAddress, 0)` and the pool amount
  defaults to `0` when absent. -/
def deliverMessageSend (m : MessageSend) (fee : Nat) (env : DeliverEnv) :
    DeliverTxResponse × Option StateWrite :=
  if fee = 0 then
    ({ error := some (errMarshal "Invalid amount: must be greater than 0") }, none)
  else
    match env.readErr with
    | some e => ({ error := some (errMarshal ("State read error: " ++ e.msg)) }, none)
    | none =>
      match env.fromRead with
      | none =>
        ({ error := some (errMarshal "Cannot read properties of null (reading amount)") },
         none)
      | some fromAccount =>
        let toAccount := env.toRead.getD { address := m.toAddress, amount := 0 }
        let feePool := env.poolRead.getD { id := 0, amount := 0 }
        let fromAmount := fromAccount.amount
        let amountToDeduct := u64add m.amount fee
        if fromAmount < amountToDeduct then
          ({ error := some errInsufficientFunds }, none)
        else
          let fromKey := keyForAccount m.fromAddress
          let toKey := keyForAccount m.toAddress
          let feePoolKey := keyForFeePool env.chainId
          match calculateUpdatedBalances fromAmount toAccount m fee fromKey toKey with
          | .error s => ({ error := some (errMarshal s) }, none)
          | .ok updated =>
            let updatedPool : Pool :=
              { id := env.chainId, amount := u64add feePool.amount fee }
            let isSelf : Bool := decide (fromKey = toKey)
            let w := prepareStateOperations updated.1 updated.2 updatedPool
              fromKey toKey feePoolKey isSelf
            ({ error := env.writeErr }, some w)

/-- `deliverTx` from `contract.ts`: decode with `fromAny` (a throw yields
`errFromAny`), apply the `isMessageSend` presence guard (true on every
decoded `MessageSend`, false on a decoded `Transaction`), then execute the
send. -/
def deliverTx (msgAny : AnyMessage) (fee : Nat) (env : DeliverEnv) :
    DeliverTxResponse × Option StateWrite :=
  match fromAny msgAny with
  | .error s => ({ error := some (errFromAny s) }, none)
  | .ok (.sendMsg m) => deliverMessageSend m fee env
  | .ok .txMsg => ({ error := some errInvalidMessageCast }, none)

/-! ## Inbound dispatch (`src/network/index.ts`)

The socket client keeps `pending: Map<string, PendingRequest>`; the model
keeps the list of its keys (correlation ids as u64 values; the map invariant
makes the list duplicate-free).  `handleInboundMessage` decodes a frame and
routes it: an id found in `pending` is a response (the entry is removed and
the waiter resolved with the full decoded message), anything else is a
request handled by `processRequestMessage`. -/

/-- The oneof payload of a decoded `FSMToPlugin`. -/
inductive Payload where
  | config
  | genesis
  | begin
  | check (fee : Nat) (msg : AnyMessage)
  | deliver (fee : Nat) (msg : AnyMessage)
  | endBlock
  | stateRead
  | stateWrite
  | error (e : ProtoError)
  /-- no recognised payload kind set. -/
  | empty
deriving Repr, DecidableEq

/-- A decoded inbound `FSMToPlugin` frame. -/
structure FSMToPlugin where
  id : Nat
  payload : Payload
deriving Repr, DecidableEq

/-- The oneof payload of an outbound `PluginToFSM` reply. -/
inductive ReplyPayload where
  | genesis (error : Option ProtoError)
  | begin (error : Option ProtoError)
  | check (r : CheckTxResponse)
  | deliver (r : DeliverTxResponse)
  | endBlock (error : Option ProtoError)
  | errorR (e : ProtoError)
deriving Repr, DecidableEq

/-- An outbound `PluginToFSM` reply frame. -/
structure PluginToFSM where
  id : Nat
  payload : ReplyPayload
deriving Repr, DecidableEq

/-- What the contract's nested state calls will find, per handler. -/
structure PluginEnv where
  checkEnv : CheckEnv
  deliverEnv : DeliverEnv
deriving Repr, DecidableEq

/-- `processRequestMessage` from `network/index.ts`: `config`, a `stateRead`
or `stateWrite` arriving as a request, and `error` produce no reply
(logged and ignored); the block/tx handlers produce a reply of the same
kind; a message with no recognised payload kind throws
(`Invalid FSM to plugin message type`). -/
def processRequestMessage (env : PluginEnv) (p : Payload) :
    Except String (Option ReplyPayload) :=
  match p with
  | .config => .ok none
  | .genesis => .ok (some (.genesis none))
  | .begin => .ok (some (.begin none))
  | .check fee m => .ok (some (.check (checkTx fee m env.checkEnv).1))
  | .deliver fee m => .ok (some (.deliver (deliverTx m fee env.deliverEnv).1))
  | .endBlock => .ok (some (.endBlock none))
  | .stateRead => .ok none
  | .stateWrite => .ok none
  | .error _ => .ok none
  | .empty => .error "Invalid FSM to plugin message type"

/-- `handleFSMRequest`: runs `processRequestMessage`, sends the reply under
the same id when there is one, and converts a throw into a
`code 1, module plugin` error reply. -/
def handleFSMRequest (env : PluginEnv) (msg : FSMToPlugin) : Option PluginToFSM :=
  match processRequestMessage env msg.payload with
  | .ok none => none
  | .ok (some r) => some { id := msg.id, payload := r }
  | .error s => some { id := msg.id, payload := .errorR { code := 1, module := "plugin", msg := s } }

/-- Outcome of dispatching one inbound frame. -/
inductive Dispatch where
  /-- the frame matched a pending request: the waiter is resolved with the
  full decoded message and the pending entry is removed. -/
  | response (resolved : FSMToPlugin) (remaining : List Nat)
  /-- the frame was treated as a new FSM request; `reply` is the frame
  written back, if any. -/
  | request (reply : Option PluginToFSM)
deriving Repr, DecidableEq

/-- `handleInboundMessage` + `analyzeMessageRouting` + `handleFSMResponse`:
a decoded frame whose id is a key of `pending` is a response regardless of
payload kind — the entry is deleted and the waiter resolved with the full
message; otherwise the frame is handled as a request. -/
def handleInboundMessage (env : PluginEnv) (pending : List Nat)
    (msg : FSMToPlugin) : Dispatch :=
  if msg.id ∈ pending then .response msg (pending.erase msg.id)
  else .request (handleFSMRequest env msg)

/-- The cleanup `waitForResponse` performs when the request timeout fires:
the pending entry for the request id is deleted. -/
def timeoutCleanup (pending : List Nat) (id : Nat) : List Nat :=
  pending.erase id

/-- Spec-side classifier: the payload kinds that responses to the plugin's
own outbound calls carry (`config` for the handshake, `stateRead` and
`stateWrite` for nested state calls, `error` for failures). -/
def respKind : Payload → Bool
  | .config => true
  | .stateRead => true
  | .stateWrite => true
  | .error _ => true
  | _ => false

/-! ## Concrete fixtures (used by witnesses and counterexamples) -/

/-- A 20-byte address (20 × 0x01). -/
def addrA : Bytes := List.replicate 20 1

/-- A 20-byte address (20 × 0x02). -/
def addrB : Bytes := List.replicate 20 2

/-- A 19-byte (invalid) address. -/
def addr19 : Bytes := List.replicate 19 1

/-- An inert deliver environment for dispatch witnesses. -/
def denv0 : DeliverEnv :=
  { chainId := 1, readErr := none, fromRead := none, toRead := none,
    poolRead := none, writeErr := none }

/-- An inert check environment for dispatch witnesses. -/
def cenv0 : CheckEnv := { readErr := none, entry := .absent }

/-- An inert plugin environment for dispatch witnesses. -/
def penv0 : PluginEnv := { checkEnv := cenv0, deliverEnv := denv0 }

/-! ## Helper lemmas -/

/-- Wrapping addition agrees with `+` below the modulus. -/
theorem u64add_eq_of_lt (a b : Nat) (h : a + b < U64MOD) : u64add a b = a + b := by
  simpa [u64add] using Nat.mod_eq_of_lt h

/-- Wrapping subtraction agrees with truncated `-` when in range. -/
theorem u64sub_eq_of_le (a b : Nat) (hba : b ≤ a) (ha : a < U64MOD) :
    u64sub a b = a - b := by
  have hb : b < U64MOD := lt_of_le_of_lt hba ha
  simp only [u64sub, U64MOD] at *
  omega

/-- The account key of a 20-byte address, in explicit bytes. -/
theorem keyForAccount_of_len20 (addr : Bytes) (h : addr.length = 20) :
    keyForAccount addr = 1 :: 1 :: 20 :: addr := by
  simp [keyForAccount, joinLenPrefixed, accountTag, h]

/-- Distinct 20-byte addresses have distinct account keys. -/
theorem keyForAccount_ne (a b : Bytes) (ha : a.length = 20) (hb : b.length = 20)
    (hne : a ≠ b) : keyForAccount a ≠ keyForAccount b := by
  rw [keyForAccount_of_len20 a ha, keyForAccount_of_len20 b hb]
  simpa using hne

/-- The success path of `deliverMessageSend` on a non-self transfer: the
reply echoes the write response error and the batch has the claimed shape. -/
theorem deliverMessageSend_success (m : MessageSend) (fee : Nat) (env : DeliverEnv)
    (fromAcct : Account) (toAmount poolAmount : Nat)
    (hfrom20 : m.fromAddress.length = 20) (hto20 : m.toAddress.length = 20)
    (hneq : m.fromAddress ≠ m.toAddress)
    (hfee : 1 ≤ fee)
    (hread : env.readErr = none)
    (hsender : env.fromRead = some fromAcct)
    (hta : toAmount = (env.toRead.getD { address := m.toAddress, amount := 0 }).amount)
    (hpa : poolAmount = (env.poolRead.getD { id := 0, amount := 0 }).amount)
    (hfunds : m.amount + fee ≤ fromAcct.amount)
    (hfb : fromAcct.amount < U64MOD)
    (hdb : m.amount + fee < U64MOD)
    (htb : toAmount + m.amount < U64MOD)
    (hpb : poolAmount + fee < U64MOD) :
    deliverMessageSend m fee env =
      ({ error := env.writeErr },
       some (if fromAcct.amount - (m.amount + fee) = 0 then
          { sets := [(keyForFeePool env.chainId,
                       .pool { id := env.chainId, amount := poolAmount + fee }),
                     (keyForAccount m.toAddress,
                       .acct { address := m.toAddress, amount := toAmount + m.amount })],
            deletes := [keyForAccount m.fromAddress] }
        else
          { sets := [(keyForFeePool env.chainId,
                       .pool { id := env.chainId, amount := poolAmount + fee }),
                     (keyForAccount m.fromAddress,
                       .acct { address := m.fromAddress,
                               amount := fromAcct.amount - (m.amount + fee) }),
                     (keyForAccount m.toAddress,
                       .acct { address := m.toAddress, amount := toAmount + m.amount })],
            deletes := [] })) := by
  have hfee0 : ¬ fee = 0 := by omega
  have hkeys : ¬ keyForAccount m.fromAddress = keyForAccount m.toAddress :=
    keyForAccount_ne _ _ hfrom20 hto20 hneq
  have hadd : u64add m.amount fee = m.amount + fee := u64add_eq_of_lt _ _ hdb
  have hnlt : ¬ fromAcct.amount < u64add m.amount fee := by rw [hadd]; omega
  have hvfrom : validateAddress (.bytes m.fromAddress) = true := by
    simp [validateAddress, jsTruthy, coerceToBytes, hfrom20]
  have hvto : validateAddress (.bytes m.toAddress) = true := by
    simp [validateAddress, jsTruthy, coerceToBytes, hto20]
  have hsub : u64sub fromAcct.amount (u64add m.amount fee)
      = fromAcct.amount - (m.amount + fee) := by
    rw [hadd]; exact u64sub_eq_of_le _ _ hfunds hfb
  have htoadd : u64add (env.toRead.getD { address := m.toAddress, amount := 0 }).amount
      m.amount = toAmount + m.amount := by
    rw [← hta]; exact u64add_eq_of_lt _ _ (by omega)
  have hpooladd : u64add (env.poolRead.getD { id := 0, amount := 0 }).amount fee
      = poolAmount + fee := by
    rw [← hpa]; exact u64add_eq_of_lt _ _ (by omega)
  simp only [deliverMessageSend, hfee0, if_false, hread, hsender,
    calculateUpdatedBalances, normalizeAddressE, hvfrom, hvto, if_true, hnlt,
    prepareStateOperations, hkeys, decide_eq_true_eq, decide_eq_false_iff_not,
    hsub, htoadd, hpooladd]
  simp [hkeys, hsub, htoadd, hpooladd]
  split <;> simp_all

/-! ## Claim theorems -/

/-- C1: on a successful self-transfer deliver (here fromAmount 500, amount
100, fee 3, pool 0) the batch does set a single account key and the pool key
only, with no delete — but the account value written is the `updatedFrom`
account with amount `fromAmount − (amount + fee) = 397`, not the
`fromAmount − fee = 497` the claim states: `prepareStateOperations` writes
`updatedFromBytes` under `kFrom` and drops the fee-only `updatedTo` value on
self-transfers, so the account's delta is `−(amount + fee)` while the pool
still gains only `fee`. -/
theorem c1_selfTransfer_writes_full_deduction :
    deliverMessageSend { fromAddress := addrA, toAddress := addrA, amount := 100 } 3
      { chainId := 1, readErr := none,
        fromRead := some { address := addrA, amount := 500 },
        toRead := some { address := addrA, amount := 500 },
        poolRead := some { id := 1, amount := 0 }, writeErr := none } =
      ({ error := none },
       some { sets := [(keyForFeePool 1, .pool { id := 1, amount := 3 }),
                       (keyForAccount addrA, .acct { address := addrA, amount := 397 })],
              deletes := [] }) := by
  decide

/-- C3: a deliver whose batched read finds no value under the sender's key
replies with the MARSHAL error (code 2), not INSUFFICIENT_FUNDS (code 9):
`unmarshal` returns null for the absent sender and `fromAccount.amount`
raises a TypeError which the surrounding catch converts to `errMarshal`.
No state write is issued. -/
theorem c3_absent_sender_marshal_error :
    deliverMessageSend { fromAddress := addrA, toAddress := addrB, amount := 100 } 2
      { chainId := 1, readErr := none, fromRead := none, toRead := none,
        poolRead := none, writeErr := none } =
      ({ error := some (errMarshal "Cannot read properties of null (reading amount)") },
       none)
    ∧ (errMarshal "Cannot read properties of null (reading amount)").code = 2 := by
  decide

/-- C7: for a 20-byte address the account key is
`0x01 || 0x01 || 0x14 || addr`, for a chain id below `2 ^ 64` the fee-pool
key is `0x01 || 0x02 || 0x08 || bigEndianU64(c)`, and the length-prefix
joiner contributes nothing for absent or empty items. -/
theorem c7_key_codec (addr : Bytes) (c : Nat) (h20 : addr.length = 20)
    (hc : c < U64MOD) :
    keyForAccount addr = 1 :: 1 :: 20 :: addr
    ∧ keyForFeePool c = [1, 2, 8, c / 2 ^ 56 % 256, c / 2 ^ 48 % 256,
        c / 2 ^ 40 % 256, c / 2 ^ 32 % 256, c / 2 ^ 24 % 256, c / 2 ^ 16 % 256,
        c / 2 ^ 8 % 256, c % 256]
    ∧ (∀ items : List (Option Bytes),
        joinLenPrefixed (none :: items) = joinLenPrefixed items)
    ∧ (∀ items : List (Option Bytes),
        joinLenPrefixed (some [] :: items) = joinLenPrefixed items) := by
  refine ⟨keyForAccount_of_len20 addr h20, ?_, fun _ => rfl, fun _ => rfl⟩
  simp [keyForFeePool, joinLenPrefixed, poolTag, formatUint64]

/-- C2: on a successful non-self deliver the batch sets `kPool` to
`poolAmount + fee` and `kTo` to `toAmount + amount`; `kFrom` is deleted
(and not set) exactly when `fromAmount − (amount + fee) = 0`, otherwise it
is set to that difference; the sum of the two balances and the pool is
unchanged.  (All quantities are u64 values and the stated sums stay below
`2 ^ 64`, the range on which the source's checked arithmetic is meant to
operate.) -/
theorem c2_nonself_deliver_batch (m : MessageSend) (fee : Nat) (env : DeliverEnv)
    (fromAcct : Account) (toAmount poolAmount : Nat)
    (hfrom20 : m.fromAddress.length = 20) (hto20 : m.toAddress.length = 20)
    (hneq : m.fromAddress ≠ m.toAddress)
    (hfee : 1 ≤ fee)
    (hread : env.readErr = none)
    (hwrite : env.writeErr = none)
    (hsender : env.fromRead = some fromAcct)
    (hta : toAmount = (env.toRead.getD { address := m.toAddress, amount := 0 }).amount)
    (hpa : poolAmount = (env.poolRead.getD { id := 0, amount := 0 }).amount)
    (hfunds : m.amount + fee ≤ fromAcct.amount)
    (hfb : fromAcct.amount < U64MOD)
    (hdb : m.amount + fee < U64MOD)
    (htb : toAmount + m.amount < U64MOD)
    (hpb : poolAmount + fee < U64MOD) :
    deliverMessageSend m fee env =
      ({ error := none },
       some (if fromAcct.amount - (m.amount + fee) = 0 then
          { sets := [(keyForFeePool env.chainId,
                       .pool { id := env.chainId, amount := poolAmount + fee }),
                     (keyForAccount m.toAddress,
                       .acct { address := m.toAddress, amount := toAmount + m.amount })],
            deletes := [keyForAccount m.fromAddress] }
        else
          { sets := [(keyForFeePool env.chainId,
                       .pool { id := env.chainId, amount := poolAmount + fee }),
                     (keyForAccount m.fromAddress,
                       .acct { address := m.fromAddress,
                               amount := fromAcct.amount - (m.amount + fee) }),
                     (keyForAccount m.toAddress,
                       .acct { address := m.toAddress, amount := toAmount + m.amount })],
            deletes := [] }))
    ∧ (fromAcct.amount - (m.amount + fee)) + (toAmount + m.amount) + (poolAmount + fee)
        = fromAcct.amount + toAmount + poolAmount := by
  constructor
  · rw [deliverMessageSend_success m fee env fromAcct toAmount poolAmount hfrom20 hto20
      hneq hfee hread hsender hta hpa hfunds hfb hdb htb hpb, hwrite]
  · omega

/-- C2 witness: the theorem at the spec's first end-to-end scenario
(balances 1000 and 50, pool 0, amount 100, fee 2). -/
theorem c2_nonself_deliver_batch_witness :
    (100 + 2 ≤ 1000 ∧ addrA ≠ addrB)
    ∧ (deliverMessageSend { fromAddress := addrA, toAddress := addrB, amount := 100 } 2
        { chainId := 1, readErr := none,
          fromRead := some { address := addrA, amount := 1000 },
          toRead := some { address := addrB, amount := 50 },
          poolRead := some { id := 1, amount := 0 }, writeErr := none } =
        ({ error := none },
         some (if (1000 : Nat) - (100 + 2) = 0 then
            { sets := [(keyForFeePool 1, .pool { id := 1, amount := 0 + 2 }),
                       (keyForAccount addrB, .acct { address := addrB, amount := 50 + 100 })],
              deletes := [keyForAccount addrA] }
          else
            { sets := [(keyForFeePool 1, .pool { id := 1, amount := 0 + 2 }),
                       (keyForAccount addrA, .acct { address := addrA, amount := 1000 - (100 + 2) }),
                       (keyForAccount addrB, .acct { address := addrB, amount := 50 + 100 })],
              deletes := [] }))
       ∧ (1000 - (100 + 2)) + (50 + 100) + (0 + 2) = 1000 + 50 + 0) :=
  ⟨⟨by decide, by decide⟩,
   c2_nonself_deliver_batch { fromAddress := addrA, toAddress := addrB, amount := 100 } 2
     { chainId := 1, readErr := none,
       fromRead := some { address := addrA, amount := 1000 },
       toRead := some { address := addrB, amount := 50 },
       poolRead := some { id := 1, amount := 0 }, writeErr := none }
     { address := addrA, amount := 1000 } 50 0
     (by decide) (by decide) (by decide) (by decide) rfl rfl rfl rfl rfl
     (by decide) (by decide) (by decide) (by decide) (by decide)⟩

/-- C4 counterexample: a deliver with `fee = 0`, sender balance 5 and
amount 10 satisfies `fromAmount < amount + fee`, yet the reply carries the
MARSHAL error (code 2) — `normalizeAmount` throws on the zero fee before
the funds check — and not INSUFFICIENT_FUNDS (code 9).  (No state write is
issued, as the claim says.) -/
theorem c4_zero_fee_counterexample :
    (5 : Nat) < 10 + 0
    ∧ deliverMessageSend { fromAddress := addrA, toAddress := addrB, amount := 10 } 0
        { chainId := 1, readErr := none,
          fromRead := some { address := addrA, amount := 5 },
          toRead := none, poolRead := none, writeErr := none } =
        ({ error := some (errMarshal "Invalid amount: must be greater than 0") }, none)
    ∧ (errMarshal "Invalid amount: must be greater than 0").code = 2 := by
  decide

/-- C4 (amended): for a deliver with a positive fee whose batched read
succeeds and finds the sender, if `fromAmount < amount + fee` (the sum not
exceeding u64) then no state write is issued and the reply carries
`{code 9, module plugin, msg insufficient funds}`. -/
theorem c4_insufficient_funds_no_write (m : MessageSend) (fee : Nat)
    (env : DeliverEnv) (fromAcct : Account)
    (hfee : 1 ≤ fee) (hread : env.readErr = none)
    (hsender : env.fromRead = some fromAcct)
    (hdb : m.amount + fee < U64MOD)
    (hfunds : fromAcct.amount < m.amount + fee) :
    deliverMessageSend m fee env =
      ({ error := some { code := 9, module := "plugin", msg := "insufficient funds" } },
       none) := by
  have hfee0 : ¬ fee = 0 := by omega
  have hadd : u64add m.amount fee = m.amount + fee := u64add_eq_of_lt _ _ hdb
  simp only [deliverMessageSend, hfee0, if_false, hread, hsender, hadd]
  simp [hfunds, errInsufficientFunds]

/-- C4 witness: the theorem at the spec's insufficient-funds scenario
(balance 10, amount 100, fee 2). -/
theorem c4_insufficient_funds_no_write_witness :
    ((10 : Nat) < 100 + 2 ∧ (1 : Nat) ≤ 2)
    ∧ deliverMessageSend { fromAddress := addrA, toAddress := addrB, amount := 100 } 2
        { chainId := 1, readErr := none,
          fromRead := some { address := addrA, amount := 10 },
          toRead := none, poolRead := none, writeErr := none } =
        ({ error := some { code := 9, module := "plugin", msg := "insufficient funds" } },
         none) :=
  ⟨⟨by decide, by decide⟩,
   c4_insufficient_funds_no_write { fromAddress := addrA, toAddress := addrB, amount := 100 } 2
     { chainId := 1, readErr := none,
       fromRead := some { address := addrA, amount := 10 },
       toRead := none, poolRead := none, writeErr := none }
     { address := addrA, amount := 10 }
     (by decide) rfl rfl (by decide) (by decide)⟩

/-- C5 counterexample: a `checkTx` with `tx.fee = 0`, strictly below the
decoded `sendFee = 5`, replies with the UNMARSHAL error (code 3) —
`normalizeAmount` throws on the zero fee and the surrounding catch wraps the
throw — and not TX_FEE_BELOW_STATE_LIMIT (code 14).  Only the fee-params
read is performed. -/
theorem c5_zero_fee_counterexample :
    (0 : Nat) < 5
    ∧ (checkTx 0 (mkSendAny { fromAddress := addrA, toAddress := addrB, amount := 10 })
        { readErr := none, entry := .value 5 }).1.error.map ProtoError.code = some 3
    ∧ (checkTx 0 (mkSendAny { fromAddress := addrA, toAddress := addrB, amount := 10 })
        { readErr := none, entry := .value 5 }).2 = [CheckEvent.feeParamsRead] := by
  decide

/-- C5 (amended): for a `checkTx` whose fee-params read succeeds and decodes
to `sendFee`, if `1 ≤ tx.fee < sendFee` then the reply carries
TX_FEE_BELOW_STATE_LIMIT (code 14) and the run performs exactly the single
fee-params read — it never reaches `fromAny`, address validation or amount
validation. -/
theorem c5_fee_floor (fee sendFee : Nat) (msgAny : AnyMessage) (env : CheckEnv)
    (hread : env.readErr = none) (hentry : env.entry = .value sendFee)
    (hfee : 1 ≤ fee) (hlt : fee < sendFee) :
    checkTx fee msgAny env =
      ({ recipient := none, authorizedSigners := [],
         error := some { code := 14, module := "plugin",
                         msg := "tx.fee is below state limit" } },
       [CheckEvent.feeParamsRead]) := by
  have hfee0 : ¬ fee = 0 := by omega
  have hsf0 : ¬ sendFee = 0 := by omega
  simp only [checkTx, hread, hentry, hfee0, if_false, hsf0, hlt, if_true]
  simp [checkErr, errTxFeeBelowStateLimit]

/-- C5 witness: the theorem at fee 4 and `sendFee` 5 (the spec's fee-floor
scenario). -/
theorem c5_fee_floor_witness :
    ((1 : Nat) ≤ 4 ∧ (4 : Nat) < 5)
    ∧ checkTx 4 (mkSendAny { fromAddress := addrA, toAddress := addrB, amount := 10 })
        { readErr := none, entry := .value 5 } =
      ({ recipient := none, authorizedSigners := [],
         error := some { code := 14, module := "plugin",
                         msg := "tx.fee is below state limit" } },
       [CheckEvent.feeParamsRead]) :=
  ⟨⟨by decide, by decide⟩,
   c5_fee_floor 4 5 (mkSendAny { fromAddress := addrA, toAddress := addrB, amount := 10 })
     { readErr := none, entry := .value 5 } rfl rfl (by decide) (by decide)⟩

/-- C7 witness: the theorem at the concrete address 20 × 0x01 and chain
id 1. -/
theorem c7_key_codec_witness :
    addrA.length = 20 ∧ (1 : Nat) < U64MOD
    ∧ (keyForAccount addrA = 1 :: 1 :: 20 :: addrA
       ∧ keyForFeePool 1 = [1, 2, 8, 1 / 2 ^ 56 % 256, 1 / 2 ^ 48 % 256,
           1 / 2 ^ 40 % 256, 1 / 2 ^ 32 % 256, 1 / 2 ^ 24 % 256, 1 / 2 ^ 16 % 256,
           1 / 2 ^ 8 % 256, 1 % 256]
       ∧ (∀ items : List (Option Bytes),
           joinLenPrefixed (none :: items) = joinLenPrefixed items)
       ∧ (∀ items : List (Option Bytes),
           joinLenPrefixed (some [] :: items) = joinLenPrefixed items)) :=
  ⟨by decide, by decide, c7_key_codec addrA 1 (by decide) (by decide)⟩

/-- C6: a decoded inbound message whose id has a pending entry is handled as
a response regardless of payload kind — the entry is removed and the waiter
is completed with the full decoded message; and after a timeout has removed
the pending entry (`timeoutCleanup`), a late response bearing that id (any
payload kind a response can carry) resolves no waiter and produces no
reply. -/
theorem c6_correlation_routing (env : PluginEnv) (pending : List Nat)
    (msg : FSMToPlugin) :
    (msg.id ∈ pending →
      handleInboundMessage env pending msg = .response msg (pending.erase msg.id))
    ∧ (pending.Nodup → respKind msg.payload = true →
      handleInboundMessage env (timeoutCleanup pending msg.id) msg = .request none) := by
  constructor
  · intro h
    simp [handleInboundMessage, h]
  · intro hnd hkind
    have hnot : msg.id ∉ timeoutCleanup pending msg.id := by
      intro hm
      exact ((hnd.mem_erase_iff).mp hm).1 rfl
    simp only [handleInboundMessage, hnot, if_false, if_neg]
    cases hp : msg.payload <;>
      simp_all [respKind, handleFSMRequest, processRequestMessage]

/-- C6 witness: the theorem with pending ids 5 and 7, a `config`-carrying
frame with id 5 routed as a response, and — after the timeout cleanup of
id 5 — a late `stateRead`-carrying frame with id 5 producing no reply. -/
theorem c6_correlation_routing_witness :
    ((5 : Nat) ∈ [5, 7] ∧ ([5, 7] : List Nat).Nodup
      ∧ respKind Payload.stateRead = true)
    ∧ handleInboundMessage penv0 [5, 7] { id := 5, payload := .config }
        = .response { id := 5, payload := .config } (([5, 7] : List Nat).erase 5)
    ∧ handleInboundMessage penv0 (timeoutCleanup [5, 7] 5)
        { id := 5, payload := .stateRead } = .request none :=
  ⟨⟨by decide, by decide, by decide⟩,
   (c6_correlation_routing penv0 [5, 7] { id := 5, payload := .config }).1 (by decide),
   (c6_correlation_routing penv0 [5, 7] { id := 5, payload := .stateRead }).2
     (by decide) (by decide)⟩

/-- C8 counterexample: the fractional number `3 / 2` is accepted by
`validateAmount` although it is not a non-zero unsigned integer at most
`2 ^ 64 − 1`, refuting the claimed equivalence. -/
theorem c8_fractional_amount_counterexample :
    validateAmount (.num (3 / 2 : ℚ)) = true
    ∧ specNonzeroU64Int (3 / 2 : ℚ) = false := by
  constructor
  · simp only [validateAmount, decide_eq_true_eq]
    norm_num
  · have hden : (3 / 2 : ℚ).den = 2 := by norm_num
    simp [specNonzeroU64Int, hden]

/-- C8 (amended): `validateAddress` is true exactly when the value coerces
to a byte sequence of length 20; `validateAmount` requires only a positive
conversion — a `Long` with positive value passes, any positive finite number
passes (fractional values and values above `2 ^ 64 − 1` included), and zero,
NaN, the infinities and null are rejected — so it is not the claimed
"non-zero unsigned integer ≤ 2 ^ 64 − 1" test. -/
theorem c8_validation_amended (v : JSValue) (q : ℚ) (n : Nat)
    (hn0 : 0 < n) (hn : n < U64MOD) :
    validateAddress v = coercesTo20Bytes v
    ∧ (validateAmount (.num q) = true ↔ 0 < q)
    ∧ validateAmount (.longObj n true) = true
    ∧ validateAmount (.longObj 0 true) = false
    ∧ validateAmount .nanV = false
    ∧ validateAmount (.infV false) = false
    ∧ validateAmount .nullV = false := by
  refine ⟨?_, by simp [validateAmount], ?_, by decide, by decide, by decide, by decide⟩
  · cases v <;>
      simp [validateAddress, coercesTo20Bytes, jsTruthy, coerceToBytes]
    case decStr ds neg => cases ds <;> cases neg <;> simp
  · have hmod : n % U64MOD = n := Nat.mod_eq_of_lt hn
    simp only [validateAmount, longGtZero, longToZ, if_true, hmod,
      decide_eq_true_eq]
    exact_mod_cast hn0

/-- C8 witness: the theorem at a 20-byte buffer, the number `3 / 2` and the
u64 value 7. -/
theorem c8_validation_amended_witness :
    ((0 : Nat) < 7 ∧ (7 : Nat) < U64MOD)
    ∧ (validateAddress (.bytes addrA) = coercesTo20Bytes (.bytes addrA)
       ∧ (validateAmount (.num (3 / 2 : ℚ)) = true ↔ 0 < (3 / 2 : ℚ))
       ∧ validateAmount (.longObj 7 true) = true
       ∧ validateAmount (.longObj 0 true) = false
       ∧ validateAmount .nanV = false
       ∧ validateAmount (.infV false) = false
       ∧ validateAmount .nullV = false) :=
  ⟨⟨by decide, by decide⟩,
   c8_validation_amended (.bytes addrA) (3 / 2 : ℚ) 7 (by decide) (by decide)⟩

/-- `fromAny` on an `Any` whose last URL segment names a `Transaction`
and whose value decodes: the result is the decoded transaction. -/
theorem fromAny_transaction (a : AnyMessage) (url : String) (m : MessageSend)
    (hurl : a.typeUrl = some url)
    (hseg : lastSegment url = "Transaction" ∨ lastSegment url = "types.Transaction")
    (hval : a.value = .content m) :
    fromAny a = .ok .txMsg := by
  have hne : ¬ url = "" := by
    rintro rfl
    rcases hseg with h | h <;> revert h <;> decide
  rcases hseg with h | h <;> simp [fromAny, hurl, hne, hval, h]

/-- `fromAny` throws on an `Any` whose last URL segment names no recognised
message kind. -/
theorem fromAny_unknown_error (a : AnyMessage) (url : String)
    (hurl : a.typeUrl = some url)
    (h1 : ¬ lastSegment url = "MessageSend")
    (h2 : ¬ lastSegment url = "types.MessageSend")
    (h3 : ¬ lastSegment url = "Transaction")
    (h4 : ¬ lastSegment url = "types.Transaction") :
    ∃ s, fromAny a = .error s := by
  by_cases hne : url = ""
  · exact ⟨"FromAny failed: Any message missing type URL", by simp [fromAny, hurl, hne]⟩
  · cases hval : a.value with
    | absent =>
      exact ⟨"FromAny failed: Any message missing value",
        by simp [fromAny, hurl, hne, hval]⟩
    | empty =>
      exact ⟨"FromAny failed: Unknown message type in Any: " ++ lastSegment url,
        by simp [fromAny, hurl, hne, hval, h1, h2, h3, h4]⟩
    | content m =>
      exact ⟨"FromAny failed: Unknown message type in Any: " ++ lastSegment url,
        by simp [fromAny, hurl, hne, hval, h1, h2, h3, h4]⟩

/-- C9 counterexample: a deliver whose `Any` carries the unknown type URL
"Bogus" replies with the FROM_ANY error (code 10), not INVALID_MESSAGE_CAST
(code 11): `fromAny` throws on unknown kinds and `deliverTx`/`checkTx` wrap
the throw as `errFromAny`. -/
theorem c9_unknown_type_counterexample :
    (deliverTx { typeUrl := some "Bogus",
                 value := .content { fromAddress := addrA, toAddress := addrB, amount := 1 } }
        5 denv0).1.error.map ProtoError.code = some 10
    ∧ ¬ (deliverTx { typeUrl := some "Bogus",
                     value := .content { fromAddress := addrA, toAddress := addrB, amount := 1 } }
        5 denv0).1.error.map ProtoError.code = some 11 := by
  decide

/-- C9 (amended): in `checkTx` (past the fee floor) and `deliverTx`, an
`Any` carrying a recognised-but-non-send kind (`Transaction` /
`types.Transaction`) yields INVALID_MESSAGE_CAST (code 11), while an
unrecognised kind makes `fromAny` throw and yields FROM_ANY (code 10); in
both cases no state write is issued by `deliverTx`. -/
theorem c9_message_cast_amended (fee sendFee : Nat) (denv : DeliverEnv)
    (cenv : CheckEnv)
    (hcread : cenv.readErr = none) (hcentry : cenv.entry = .value sendFee)
    (hsf : 1 ≤ sendFee) (hfs : sendFee ≤ fee) :
    (∀ (a : AnyMessage) (url : String) (m : MessageSend),
        a.typeUrl = some url →
        (lastSegment url = "Transaction" ∨ lastSegment url = "types.Transaction") →
        a.value = .content m →
        deliverTx a fee denv = ({ error := some errInvalidMessageCast }, none)
        ∧ (checkTx fee a cenv).1 = checkErr errInvalidMessageCast)
    ∧ (∀ (a : AnyMessage) (url : String),
        a.typeUrl = some url →
        ¬ lastSegment url = "MessageSend" →
        ¬ lastSegment url = "types.MessageSend" →
        ¬ lastSegment url = "Transaction" →
        ¬ lastSegment url = "types.Transaction" →
        (deliverTx a fee denv).1.error.map ProtoError.code = some 10
        ∧ (deliverTx a fee denv).2 = none
        ∧ (checkTx fee a cenv).1.error.map ProtoError.code = some 10) := by
  have hfee0 : ¬ fee = 0 := by omega
  have hsf0 : ¬ sendFee = 0 := by omega
  have hnlt : ¬ fee < sendFee := by omega
  constructor
  · intro a url m hurl hseg hval
    have hfa := fromAny_transaction a url m hurl hseg hval
    constructor
    · simp [deliverTx, hfa]
    · simp [checkTx, hcread, hcentry, hfee0, hsf0, hnlt, hfa]
  · intro a url hurl h1 h2 h3 h4
    obtain ⟨s, hfa⟩ := fromAny_unknown_error a url hurl h1 h2 h3 h4
    refine ⟨?_, ?_, ?_⟩ <;>
      simp [deliverTx, checkTx, hcread, hcentry, hfee0, hsf0, hnlt, hfa,
        errFromAny, checkErr]

/-- C9 witness: the theorem applied to a `types.Transaction` `Any` and to a
"Bogus" `Any`, with fee 5 and `sendFee` 1. -/
theorem c9_message_cast_amended_witness :
    (deliverTx { typeUrl := some "types.Transaction",
                 value := .content { fromAddress := addrA, toAddress := addrB, amount := 1 } }
        5 denv0 = ({ error := some errInvalidMessageCast }, none)
     ∧ (checkTx 5 { typeUrl := some "types.Transaction",
                    value := .content { fromAddress := addrA, toAddress := addrB, amount := 1 } }
          { readErr := none, entry := .value 1 }).1 = checkErr errInvalidMessageCast)
    ∧ ((deliverTx { typeUrl := some "NoSuchKind",
                    value := .content { fromAddress := addrA, toAddress := addrB, amount := 1 } }
          5 denv0).1.error.map ProtoError.code = some 10
       ∧ (deliverTx { typeUrl := some "NoSuchKind",
                      value := .content { fromAddress := addrA, toAddress := addrB, amount := 1 } }
            5 denv0).2 = none
       ∧ (checkTx 5 { typeUrl := some "NoSuchKind",
                      value := .content { fromAddress := addrA, toAddress := addrB, amount := 1 } }
            { readErr := none, entry := .value 1 }).1.error.map ProtoError.code = some 10) :=
  ⟨(c9_message_cast_amended 5 1 denv0 { readErr := none, entry := .value 1 }
      rfl rfl (by decide) (by decide)).1
     { typeUrl := some "types.Transaction",
       value := .content { fromAddress := addrA, toAddress := addrB, amount := 1 } }
     "types.Transaction" { fromAddress := addrA, toAddress := addrB, amount := 1 }
     rfl (Or.inr (by decide)) rfl,
   (c9_message_cast_amended 5 1 denv0 { readErr := none, entry := .value 1 }
      rfl rfl (by decide) (by decide)).2
     { typeUrl := some "NoSuchKind",
       value := .content { fromAddress := addrA, toAddress := addrB, amount := 1 } }
     "NoSuchKind" rfl (by decide) (by decide) (by decide) (by decide)⟩

/-- The deliver path never produces the checkTx validity errors
INVALID_ADDRESS (12) or INVALID_AMOUNT (13): its own errors are FROM_ANY
(10), INVALID_MESSAGE_CAST (11), MARSHAL (2) and INSUFFICIENT_FUNDS (9). -/
theorem deliverMessageSend_no_validity_codes (m : MessageSend) (fee : Nat)
    (env : DeliverEnv) (hw : env.writeErr = none) :
    ¬ (deliverMessageSend m fee env).1.error.map ProtoError.code = some 12
    ∧ ¬ (deliverMessageSend m fee env).1.error.map ProtoError.code = some 13 := by
  unfold deliverMessageSend
  split
  · simp [errMarshal]
  · split
    · simp [errMarshal]
    · split
      · simp [errMarshal]
      · dsimp only
        split
        · simp [errInsufficientFunds]
        · split
          · simp [errMarshal]
          · simp [hw]

/-- The deliver entry point never produces codes 12 or 13 either: the
`fromAny` and message-cast failures carry codes 10 and 11. -/
theorem deliverTx_no_validity_codes (a : AnyMessage) (fee : Nat) (env : DeliverEnv)
    (hw : env.writeErr = none) :
    ¬ (deliverTx a fee env).1.error.map ProtoError.code = some 12
    ∧ ¬ (deliverTx a fee env).1.error.map ProtoError.code = some 13 := by
  unfold deliverTx
  split
  · simp [errFromAny]
  · exact deliverMessageSend_no_validity_codes _ _ _ hw
  · simp [errInvalidMessageCast]

/-- C10 counterexample: `deliverTx` does check address lengths on the
execution path — a decoded `MessageSend` with a 19-byte `fromAddress`,
sufficient funds and a positive fee does not complete: `normalizeAddress`
inside `calculateUpdatedBalances` rejects the address and the deliver
replies with MARSHAL (code 2) and issues no state write. -/
theorem c10_address_checked_counterexample :
    addr19.length = 19
    ∧ deliverTx (mkSendAny { fromAddress := addr19, toAddress := addrB, amount := 5 }) 1
        { chainId := 1, readErr := none,
          fromRead := some { address := addr19, amount := 100 },
          toRead := none, poolRead := none, writeErr := none } =
        ({ error := some (errMarshal "Invalid address: must be exactly 20 bytes") },
         none) := by
  decide

/-- C10 (amended): `deliverTx` does not re-apply `checkTx`'s validity rules
as such — it never returns INVALID_ADDRESS (12) or INVALID_AMOUNT (13), and
`amount > 0` is never enforced: a send with `amount = 0`, a positive fee and
`fromAmount ≥ fee` completes with `error: null` and issues the state write.
(Address lengths do resurface on the execution path: `normalizeAddress`
fails non-20-byte addresses with MARSHAL, code 2, after the funds check.) -/
theorem c10_no_revalidation_amended (m : MessageSend) (fee : Nat)
    (env : DeliverEnv) (fromAcct : Account) (toAmount poolAmount : Nat)
    (hfrom20 : m.fromAddress.length = 20) (hto20 : m.toAddress.length = 20)
    (hneq : m.fromAddress ≠ m.toAddress)
    (hamt : m.amount = 0)
    (hfee : 1 ≤ fee)
    (hread : env.readErr = none) (hwrite : env.writeErr = none)
    (hsender : env.fromRead = some fromAcct)
    (hta : toAmount = (env.toRead.getD { address := m.toAddress, amount := 0 }).amount)
    (hpa : poolAmount = (env.poolRead.getD { id := 0, amount := 0 }).amount)
    (hfunds : fee ≤ fromAcct.amount)
    (hfb : fromAcct.amount < U64MOD) (hdb : fee < U64MOD)
    (htb : toAmount < U64MOD) (hpb : poolAmount + fee < U64MOD) :
    ((deliverTx (mkSendAny m) fee env).1 = { error := none }
     ∧ (deliverTx (mkSendAny m) fee env).2.isSome = true)
    ∧ (∀ (a : AnyMessage) (fee2 : Nat) (env2 : DeliverEnv), env2.writeErr = none →
        ¬ (deliverTx a fee2 env2).1.error.map ProtoError.code = some 12
        ∧ ¬ (deliverTx a fee2 env2).1.error.map ProtoError.code = some 13) := by
  refine ⟨?_, fun a fee2 env2 hw2 => deliverTx_no_validity_codes a fee2 env2 hw2⟩
  have hfa : fromAny (mkSendAny m) = .ok (.sendMsg m) := rfl
  have hdel : deliverTx (mkSendAny m) fee env = deliverMessageSend m fee env := by
    simp [deliverTx, hfa]
  rw [hdel, deliverMessageSend_success m fee env fromAcct toAmount poolAmount
    hfrom20 hto20 hneq hfee hread hsender hta hpa (by omega) hfb (by omega)
    (by omega) hpb, hwrite]
  constructor
  · rfl
  · split <;> rfl

/-- C10 witness: the theorem at a zero-amount send with fee 1 from a sender
holding 100, plus the no-validity-codes clause at the same input. -/
theorem c10_no_revalidation_amended_witness :
    ((deliverTx (mkSendAny { fromAddress := addrA, toAddress := addrB, amount := 0 }) 1
        { chainId := 1, readErr := none,
          fromRead := some { address := addrA, amount := 100 },
          toRead := none, poolRead := none, writeErr := none }).1 = { error := none }
     ∧ (deliverTx (mkSendAny { fromAddress := addrA, toAddress := addrB, amount := 0 }) 1
        { chainId := 1, readErr := none,
          fromRead := some { address := addrA, amount := 100 },
          toRead := none, poolRead := none, writeErr := none }).2.isSome = true)
    ∧ (∀ (a : AnyMessage) (fee2 : Nat) (env2 : DeliverEnv), env2.writeErr = none →
        ¬ (deliverTx a fee2 env2).1.error.map ProtoError.code = some 12
        ∧ ¬ (deliverTx a fee2 env2).1.error.map ProtoError.code = some 13) :=
  c10_no_revalidation_amended
    { fromAddress := addrA, toAddress := addrB, amount := 0 } 1
    { chainId := 1, readErr := none,
      fromRead := some { address := addrA, amount := 100 },
      toRead := none, poolRead := none, writeErr := none }
    { address := addrA, amount := 100 } 0 0
    (by decide) (by decide) (by decide) rfl (by decide) rfl rfl rfl rfl rfl
    (by decide) (by decide) (by decide) (by decide) (by decide)

end Plugin
